import Mathlib

/-!
Verification development for the `cosmic-ext-alternative-startup` session
helper (src/main.rs, src/session.rs).

The development shallowly embeds the pieces of `src/session.rs` that the
specification talks about:

* the control-channel message type `Message` and its length-prefixed JSON
  wire codec (`encodeMessage`, `decodeFrame`, mirroring the
  `serde_json::to_string` / `from_str` calls plus the 2-byte native-order
  length prefix written in `setup_socket`);
* the streaming frame state machine of the control-channel callback
  (`chanStep` / `chanRun`, mirroring `setup_socket`'s event-loop closure,
  session.rs lines 101-132);
* descriptor adoption (`set_cloexec` / `adoptControlSocket`,
  session.rs lines 46-53 and 79-87);
* the `NewPrivilegedClient` handling: descriptor reception, the
  `assert_eq!` count check, path resolution, and relay installation
  (`handleNewClient`, `resolveSocketPath`, `installRelayPair`,
  session.rs lines 135-258);
* one relay forwarding direction (`sendLoop` / `relayCallback`,
  session.rs lines 178-208 and the symmetric block at 214-244).

Bytes are modelled as `Nat` values (< 256 on all inputs of interest),
file descriptors as `Int` (the sentinel is `-1`), and machine reads and
writes as explicit outcome lists so that the event-loop callbacks become
pure functions.
-/

/-- Control-channel messages, mirroring `enum Message` in session.rs
(lines 17-22).  `serde(rename_all = "snake_case", tag = "message")`
makes the wire form a JSON object tagged by a `message` field holding
`set_env` or `new_privileged_client`.  The `HashMap<String, String>` of
`SetEnv` is modelled as an association list. -/
inductive Message
  | SetEnv (vars : List (String × String))
  | NewPrivilegedClient (count : Nat)
deriving DecidableEq, Repr

/-- The character `"` (written via its code point so that JSON text can be
assembled without quote-heavy literals). -/
def quoteChar : Char := Char.ofNat 34

/-- The character `\`. -/
def backslashChar : Char := Char.ofNat 92

/-- The character with code 123, i.e. an opening curly brace. -/
def lbrace : Char := Char.ofNat 123

/-- The character with code 125, i.e. a closing curly brace. -/
def rbrace : Char := Char.ofNat 125

/-- UTF-8 encoding of a single character (standard 1-4 byte forms),
modelling how Rust `String` bytes reach the socket. -/
def utf8EncodeChar (c : Char) : List Nat :=
  let n := c.toNat
  if n < 128 then [n]
  else if n < 2048 then [192 + n / 64, 128 + n % 64]
  else if n < 65536 then [224 + n / 4096, 128 + n / 64 % 64, 128 + n % 64]
  else [240 + n / 262144, 128 + n / 4096 % 64, 128 + n / 64 % 64, 128 + n % 64]

/-- UTF-8 encoding of a character sequence. -/
def utf8Encode (cs : List Char) : List Nat := cs.flatMap utf8EncodeChar

/-- Continuation-byte test for UTF-8 decoding. -/
def isCont (b : Nat) : Bool := 128 ≤ b ∧ b < 192

/-- Strict UTF-8 decoding, modelling `std::str::from_utf8`
(session.rs line 132): rejects stray continuation bytes, overlong forms,
surrogate code points and values above 0x10FFFF, exactly as the Rust
validator does. -/
def utf8Decode : List Nat → Option (List Char)
  | [] => some []
  | b0 :: rest =>
    if b0 < 128 then
      (utf8Decode rest).map (fun cs => Char.ofNat b0 :: cs)
    else if 194 ≤ b0 ∧ b0 < 224 then
      match rest with
      | b1 :: rest1 =>
        if isCont b1 then
          (utf8Decode rest1).map (fun cs => Char.ofNat ((b0 - 192) * 64 + (b1 - 128)) :: cs)
        else none
      | _ => none
    else if b0 = 224 then
      match rest with
      | b1 :: b2 :: rest2 =>
        if (160 ≤ b1 ∧ b1 < 192) ∧ isCont b2 then
          (utf8Decode rest2).map
            (fun cs => Char.ofNat ((b0 - 224) * 4096 + (b1 - 128) * 64 + (b2 - 128)) :: cs)
        else none
      | _ => none
    else if 225 ≤ b0 ∧ b0 ≤ 236 then
      match rest with
      | b1 :: b2 :: rest2 =>
        if isCont b1 ∧ isCont b2 then
          (utf8Decode rest2).map
            (fun cs => Char.ofNat ((b0 - 224) * 4096 + (b1 - 128) * 64 + (b2 - 128)) :: cs)
        else none
      | _ => none
    else if b0 = 237 then
      match rest with
      | b1 :: b2 :: rest2 =>
        if (128 ≤ b1 ∧ b1 < 160) ∧ isCont b2 then
          (utf8Decode rest2).map
            (fun cs => Char.ofNat ((b0 - 224) * 4096 + (b1 - 128) * 64 + (b2 - 128)) :: cs)
        else none
      | _ => none
    else if 238 ≤ b0 ∧ b0 ≤ 239 then
      match rest with
      | b1 :: b2 :: rest2 =>
        if isCont b1 ∧ isCont b2 then
          (utf8Decode rest2).map
            (fun cs => Char.ofNat ((b0 - 224) * 4096 + (b1 - 128) * 64 + (b2 - 128)) :: cs)
        else none
      | _ => none
    else if b0 = 240 then
      match rest with
      | b1 :: b2 :: b3 :: rest3 =>
        if (144 ≤ b1 ∧ b1 < 192) ∧ isCont b2 ∧ isCont b3 then
          (utf8Decode rest3).map
            (fun cs =>
              Char.ofNat ((b0 - 240) * 262144 + (b1 - 128) * 4096 + (b2 - 128) * 64 + (b3 - 128)) :: cs)
        else none
      | _ => none
    else if 241 ≤ b0 ∧ b0 ≤ 243 then
      match rest with
      | b1 :: b2 :: b3 :: rest3 =>
        if isCont b1 ∧ isCont b2 ∧ isCont b3 then
          (utf8Decode rest3).map
            (fun cs =>
              Char.ofNat ((b0 - 240) * 262144 + (b1 - 128) * 4096 + (b2 - 128) * 64 + (b3 - 128)) :: cs)
        else none
      | _ => none
    else if b0 = 244 then
      match rest with
      | b1 :: b2 :: b3 :: rest3 =>
        if (128 ≤ b1 ∧ b1 < 144) ∧ isCont b2 ∧ isCont b3 then
          (utf8Decode rest3).map
            (fun cs =>
              Char.ofNat ((b0 - 240) * 262144 + (b1 - 128) * 4096 + (b2 - 128) * 64 + (b3 - 128)) :: cs)
        else none
      | _ => none
    else none

/-- JSON values, restricted to the shapes the control protocol can carry:
strings, integers, booleans, null and objects.  (Arrays and non-integer
numbers never occur in `Message` traffic; inputs containing them are out
of scope of every claim below.) -/
inductive Json
  | str (s : List Char)
  | int (n : Int)
  | bool (b : Bool)
  | null
  | obj (fields : List (List Char × Json))
deriving Repr

/-- JSON string-escape for one character, following `serde_json`'s
serializer: `"` and `\` get a backslash escape, the five whitespace-class
control characters get their shorthand forms, and other control
characters would get a `\u00XX` form (represented here by the shorthand
table only, since no message field ever contains control characters). -/
def escapeJsonChar (c : Char) : List Char :=
  if c = quoteChar then [backslashChar, quoteChar]
  else if c = backslashChar then [backslashChar, backslashChar]
  else if c = Char.ofNat 8 then [backslashChar, 'b']
  else if c = Char.ofNat 9 then [backslashChar, 't']
  else if c = Char.ofNat 10 then [backslashChar, 'n']
  else if c = Char.ofNat 12 then [backslashChar, 'f']
  else if c = Char.ofNat 13 then [backslashChar, 'r']
  else [c]

/-- Render a JSON string literal including the surrounding quotes. -/
def renderString (s : List Char) : List Char :=
  quoteChar :: s.flatMap escapeJsonChar ++ [quoteChar]

/-- Render the body of the `variables` JSON object, one `"key":"value"`
entry per map element, comma separated. -/
def renderVars : List (String × String) → List Char
  | [] => []
  | [(k, v)] => renderString k.toList ++ ':' :: renderString v.toList
  | (k, v) :: rest => renderString k.toList ++ ':' :: renderString v.toList ++ ',' :: renderVars rest

/-- JSON text produced by `serde_json::to_string` for a `Message`
(session.rs line 90): an object whose first field is the `message` tag
(internally-tagged enum serialization emits the tag first), followed by
the variant payload field. -/
def messageText : Message → List Char
  | Message.SetEnv vars =>
    lbrace :: renderString ("message".toList) ++ ':' :: renderString ("set_env".toList)
      ++ ',' :: renderString ("variables".toList) ++ ':' :: lbrace :: renderVars vars
      ++ [rbrace, rbrace]
  | Message.NewPrivilegedClient count =>
    lbrace :: renderString ("message".toList) ++ ':' :: renderString ("new_privileged_client".toList)
      ++ ',' :: renderString ("count".toList) ++ ':' :: Nat.toDigits 10 count ++ [rbrace]

/-- The 2-byte length header: `(len as u16).to_ne_bytes()` (session.rs
line 93).  Native byte order on the supported targets (x86-64, aarch64)
is little-endian; the `as u16` cast truncates modulo 2^16. -/
def u16leBytes (n : Nat) : List Nat := [n % 256, n / 256 % 256]

/-- Full encoded frame for a message: length header followed by the UTF-8
JSON payload, as written by `setup_socket` (session.rs lines 90-99). -/
def encodeMessage (m : Message) : List Nat :=
  u16leBytes (utf8Encode (messageText m)).length ++ utf8Encode (messageText m)

/-- Whitespace skipping for the JSON parser. -/
def skipWs : List Char → List Char
  | [] => []
  | c :: cs => if c = ' ' ∨ c = Char.ofNat 9 ∨ c = Char.ofNat 10 ∨ c = Char.ofNat 13 then skipWs cs else c :: cs

/-- Unescape one JSON escape character (the char following a backslash).
The `\uXXXX` form is not modelled (no protocol message uses it). -/
def unescapeJsonChar (c : Char) : Option Char :=
  if c = quoteChar then some quoteChar
  else if c = backslashChar then some backslashChar
  else if c = '/' then some '/'
  else if c = 'b' then some (Char.ofNat 8)
  else if c = 't' then some (Char.ofNat 9)
  else if c = 'n' then some (Char.ofNat 10)
  else if c = 'f' then some (Char.ofNat 12)
  else if c = 'r' then some (Char.ofNat 13)
  else none

/-- Parse the body of a JSON string after the opening quote; returns the
string contents and the input remaining after the closing quote. -/
def parseStringBody : List Char → Option (List Char × List Char)
  | [] => none
  | c :: cs =>
    if c = quoteChar then some ([], cs)
    else if c = backslashChar then
      match cs with
      | [] => none
      | e :: cs1 =>
        match unescapeJsonChar e with
        | some c1 => (parseStringBody cs1).map (fun p => (c1 :: p.1, p.2))
        | none => none
    else (parseStringBody cs).map (fun p => (c :: p.1, p.2))

/-- Parse a run of decimal digits (at least one). -/
def parseDigits : List Char → Option (Nat × List Char)
  | [] => none
  | c :: cs =>
    if c.isDigit then
      match parseDigits cs with
      | some (n, rest) => some ((c.toNat - 48) * 10 ^ (cs.length - rest.length) + n, rest)
      | none => some (c.toNat - 48, cs)
    else none

mutual

/-- Fuel-indexed recursive-descent JSON value parser, modelling the
grammar `serde_json::from_str` accepts for inputs in the scope of the
claims (strings, integer numbers, booleans, null and objects). -/
def parseValue : Nat → List Char → Option (Json × List Char)
  | 0, _ => none
  | Nat.succ fuel, cs =>
    match skipWs cs with
    | [] => none
    | c :: cs1 =>
      if c = quoteChar then
        (parseStringBody cs1).map (fun p => (Json.str p.1, p.2))
      else if c = lbrace then
        (parseFields fuel (skipWs cs1) true).map (fun p => (Json.obj p.1, p.2))
      else if c = 't' then
        match cs1 with
        | 'r' :: 'u' :: 'e' :: cs2 => some (Json.bool true, cs2)
        | _ => none
      else if c = 'f' then
        match cs1 with
        | 'a' :: 'l' :: 's' :: 'e' :: cs2 => some (Json.bool false, cs2)
        | _ => none
      else if c = 'n' then
        match cs1 with
        | 'u' :: 'l' :: 'l' :: cs2 => some (Json.null, cs2)
        | _ => none
      else if c = '-' then
        (parseDigits cs1).map (fun p => (Json.int (-(p.1 : Int)), p.2))
      else if c.isDigit then
        (parseDigits (c :: cs1)).map (fun p => (Json.int (p.1 : Int), p.2))
      else none

/-- Parse the field list of a JSON object after the opening brace
(whitespace already skipped); `first` is `true` until a field has been
consumed, so that a closing brace right away yields the empty object. -/
def parseFields : Nat → List Char → Bool → Option (List (List Char × Json) × List Char)
  | 0, _, _ => none
  | Nat.succ fuel, cs, first =>
    match cs with
    | [] => none
    | c :: cs1 =>
      if c = rbrace ∧ first then some ([], cs1)
      else if c = quoteChar then
        match parseStringBody cs1 with
        | none => none
        | some (key, cs2) =>
          match skipWs cs2 with
          | ':' :: cs3 =>
            match parseValue fuel cs3 with
            | none => none
            | some (v, cs4) =>
              match skipWs cs4 with
              | c5 :: cs5 =>
                if c5 = ',' then
                  (parseFields fuel (skipWs cs5) false).map (fun p => ((key, v) :: p.1, p.2))
                else if c5 = rbrace then some ([(key, v)], cs5)
                else none
              | [] => none
          | _ => none
      else none

end

/-- Look up a field of a parsed JSON object by key (first occurrence). -/
def lookupField : List (List Char × Json) → List Char → Option Json
  | [], _ => none
  | (k, v) :: rest, key => if k = key then some v else lookupField rest key

/-- Interpret a `variables` JSON object as a string-to-string map;
any non-string value makes deserialization fail, as for
`HashMap<String, String>`. -/
def varsOfJson : List (List Char × Json) → Option (List (String × String))
  | [] => some []
  | (k, Json.str v) :: rest => (varsOfJson rest).map (fun t => (String.mk k, String.mk v) :: t)
  | _ => none

/-- Map a parsed JSON value to a `Message` following serde's
internally-tagged representation: the `message` field selects the
variant, the variant payload field is then required with the right
shape, and any other tag fails. -/
def jsonToMessage (j : Json) : Option Message :=
  match j with
  | Json.obj fields =>
    match lookupField fields ("message".toList) with
    | some (Json.str tag) =>
      if tag = "set_env".toList then
        match lookupField fields ("variables".toList) with
        | some (Json.obj vfields) => (varsOfJson vfields).map Message.SetEnv
        | _ => none
      else if tag = "new_privileged_client".toList then
        match lookupField fields ("count".toList) with
        | some (Json.int n) => if n < 0 then none else some (Message.NewPrivilegedClient n.toNat)
        | _ => none
      else none
    | _ => none
  | _ => none

/-- Parse a complete JSON document and map it to a `Message`; trailing
non-whitespace is a parse error, as for `serde_json::from_str`. -/
def parseMessageText (cs : List Char) : Option Message :=
  match parseValue (cs.length + 1) cs with
  | some (j, rest) => if (skipWs rest).isEmpty then jsonToMessage j else none
  | none => none

/-- Decode one frame payload: UTF-8 validation then JSON deserialization,
mirroring session.rs lines 132-134.  `none` covers both the
invalid-UTF-8 and the serde-error branches (both are logged and
non-fatal in the callback). -/
def decodeMessage (bytes : List Nat) : Option Message :=
  match utf8Decode bytes with
  | some cs => parseMessageText cs
  | none => none

/-- Decode a whole wire frame (length header plus payload): the header
must announce exactly the payload length. -/
def decodeFrame (frame : List Nat) : Option Message :=
  match frame with
  | b0 :: b1 :: rest =>
    if rest.length = b0 % 256 + 256 * (b1 % 256) then decodeMessage rest else none
  | _ => none

/-- Mutable per-channel state of the control-socket callback, mirroring
`struct StreamWrapper` (session.rs lines 24-29) minus the socket handle:
`buffer` is the body buffer, `size` the announced frame length (0 while
awaiting a header), `read_bytes` the accumulated body byte count. -/
structure StreamWrapper where
  buffer : List Nat
  size : Nat
  read_bytes : Nat
deriving DecidableEq, Repr

/-- Calloop post actions used by the callbacks: keep the source
registered or remove it from the event loop. -/
inductive PostAction
  | Continue
  | Remove
deriving DecidableEq, Repr

/-- Outcome of the body `read` call in one callback invocation:
`ok n` models `Ok(k)` where `k` is `n` capped by the bytes available
before EOF and by the buffer length (so `ok n` with no pending bytes is
a 0-byte read at EOF); `ioErr` models `Err(_)`. -/
inductive ReadEv
  | ok (n : Nat)
  | ioErr
deriving DecidableEq, Repr

/-- Result of one control-channel callback invocation. -/
structure StepOut where
  state : StreamWrapper
  pending : List Nat
  action : PostAction
  dispatched : Option (List Nat)
deriving DecidableEq, Repr

/-- The body-read half of the callback (session.rs lines 121-131): one
`read` into the WHOLE buffer — `stream.stream.read(&mut stream.buffer)`
starts at index 0 every time, it does not continue at `read_bytes` — the
returned count is added to `read_bytes`, and when `read_bytes` equals
`size` the state is reset and the buffer is dispatched for decoding. -/
def bodyRead (s : StreamWrapper) (pending : List Nat) (ev : ReadEv) : StepOut :=
  match ev with
  | ReadEv.ioErr => ⟨s, pending, PostAction.Remove, none⟩
  | ReadEv.ok n =>
    let k := min n (min pending.length s.buffer.length)
    let buffer := pending.take k ++ s.buffer.drop k
    let readTotal := s.read_bytes + k
    if readTotal ≠ 0 ∧ readTotal = s.size then
      ⟨⟨buffer, 0, 0⟩, pending.drop k, PostAction.Continue, some buffer⟩
    else
      ⟨⟨buffer, s.size, readTotal⟩, pending.drop k, PostAction.Continue, none⟩

/-- One invocation of the control-channel callback (session.rs lines
103-132): while `size == 0` a 2-byte header is read with `read_exact`
(an error — including EOF before 2 bytes — removes the source), the
announced size is decoded in native (little-endian) order and a zeroed
buffer of that length is allocated; the same invocation then falls
through to the body read. -/
def chanStep (s : StreamWrapper) (pending : List Nat) (ev : ReadEv) : StepOut :=
  if s.size = 0 then
    match pending with
    | b0 :: b1 :: rest =>
      bodyRead ⟨List.replicate (b0 % 256 + 256 * (b1 % 256)) 0, b0 % 256 + 256 * (b1 % 256), s.read_bytes⟩ rest ev
    | _ => ⟨s, pending, PostAction.Remove, none⟩
  else bodyRead s pending ev

/-- Cumulative result of driving the callback over a series of readiness
notifications. -/
structure RunOut where
  state : StreamWrapper
  pending : List Nat
  dispatched : List (List Nat)
  removed : Bool
deriving DecidableEq, Repr

/-- Drive the control-channel callback over a list of read outcomes,
collecting every dispatched frame buffer; stops early if the callback
asks to be removed from the loop. -/
def chanRun (s : StreamWrapper) (pending : List Nat) : List ReadEv → RunOut
  | [] => ⟨s, pending, [], false⟩
  | ev :: evs =>
    let o := chanStep s pending ev
    match o.action with
    | PostAction.Remove => ⟨o.state, o.pending, o.dispatched.toList, true⟩
    | PostAction.Continue =>
      let r := chanRun o.state o.pending evs
      ⟨r.state, r.pending, o.dispatched.toList ++ r.dispatched, r.removed⟩

/-- The freshly initialised channel state (`StreamWrapper::from`,
session.rs lines 35-44). -/
def initialStream : StreamWrapper := ⟨[], 0, 0⟩

/-- Unix path absoluteness, `Path::is_absolute`: the path has a root,
i.e. begins with a separator. -/
def isAbsolutePath (p : String) : Bool :=
  match p.toList with
  | [] => false
  | c :: _ => c = '/'

/-- Does the path end with a separator? -/
def endsWithSlash (p : String) : Bool :=
  match p.toList.getLast? with
  | some c => c = '/'
  | none => false

/-- `PathBuf::push` for a relative child path: a separator is inserted
unless the base already ends with one. -/
def pathPush (base child : String) : String :=
  if endsWithSlash base then base ++ child else base ++ "/" ++ child

/-- Target display-socket path resolution (session.rs lines 147-159):
`WAYLAND_DISPLAY` absent abandons the relay; an absolute value is used
directly; a relative value requires an absolute `XDG_RUNTIME_DIR` to be
joined under, and the relay is abandoned when that is absent or
relative. -/
def resolveSocketPath (wayland xdg : Option String) : Option String :=
  match wayland with
  | none => none
  | some name =>
    if isAbsolutePath name then some name
    else
      match xdg with
      | none => none
      | some dir => if isAbsolutePath dir then some (pathPush dir name) else none

/-- Relay directions: server→client reads the compositor socket and
writes the client, client→server the reverse. -/
inductive Dir
  | serverToClient
  | clientToServer
deriving DecidableEq, Repr

/-- Observable actions of the descriptor-handling and relay-setup code,
used to state which system effects each path performs. -/
inductive Ev
  | setCloexecEv (fd : Int)
  | closeRaw (fd : Int)
  | fromRawFd (fd : Int)
  | connectEv (path : String)
  | installed (d : Dir)
  | sent (bytes : List Nat) (fds : List Int)
  | shutdownSelf
  | shutdownPartner
deriving DecidableEq, Repr

/-- Errno values distinguished by the model: `EBADF` (returned for the
sentinel descriptor) and everything else. -/
inductive Errno
  | BADF
  | other (n : Nat)
deriving DecidableEq, Repr

/-- Outcomes of the two fcntl calls made by `set_cloexec`, supplied as
an oracle: the current flag bits from `fcntl_getfd` and the result of
`fcntl_setfd` on the updated bits. -/
structure FdOps where
  getfd : Except Errno Nat
  setfd : Nat → Except Errno Unit

/-- The `FD_CLOEXEC` flag bit. -/
def FD_CLOEXEC : Nat := 1

/-- `set_cloexec` (session.rs lines 46-53): the sentinel `-1` fails with
`EBADF` before any fcntl call; otherwise the current flag set is
queried, `FD_CLOEXEC` is or-ed in, and the result written back; either
fcntl failure propagates. -/
def set_cloexec (fd : Int) (ops : FdOps) : Except Errno Unit :=
  if fd = -1 then Except.error Errno.BADF
  else
    match ops.getfd with
    | Except.error e => Except.error e
    | Except.ok flags => ops.setfd (flags ||| FD_CLOEXEC)

/-- Result of adopting the inherited control-socket descriptor. -/
inductive AdoptResult
  | sock (fd : Int)
  | failure (e : Errno)
deriving DecidableEq, Repr

/-- Adoption of the control-socket descriptor (session.rs lines 79-87):
on `set_cloexec` success the raw value is wrapped via
`UnixStream::from_raw_fd` into an owned socket; on failure the raw
descriptor is explicitly closed before the error is returned. -/
def adoptControlSocket (fd : Int) (ops : FdOps) : AdoptResult × List Ev :=
  match set_cloexec fd ops with
  | Except.ok _ => (AdoptResult.sock fd, [Ev.setCloexecEv fd])
  | Except.error e => (AdoptResult.failure e, [Ev.setCloexecEv fd, Ev.closeRaw fd])

/-- Environment and call-outcome oracle for one `NewPrivilegedClient`
handling pass: the two environment variables consulted by path
resolution, and the success of the `connect`, the two `try_clone`s and
the two `insert_source` registrations. -/
structure RelayEnv where
  wayland : Option String
  xdg : Option String
  connectOk : String → Bool
  cloneClientOk : Bool
  cloneServerOk : Bool
  insertServerOk : Bool
  insertClientOk : Bool

/-- Relay-pair installation (session.rs lines 160-247) given the
outcomes of `connect`, the two `try_clone` calls and the two
`insert_source` calls.  A `try_clone` failure logs and abandons the
relay; each `insert_source` failure is only logged (`warn!`) — the
second registration is still attempted after the first fails, nothing
already registered is removed, and no endpoint is shut down. -/
def installRelayPair (connected c1 c2 i1 i2 : Bool) : List Ev :=
  if connected then
    if c1 then
      if c2 then
        (if i1 then [Ev.installed Dir.serverToClient] else [])
          ++ (if i2 then [Ev.installed Dir.clientToServer] else [])
      else []
    else []
  else []

/-- Handling of one descriptor delivered with a `NewPrivilegedClient`
frame (session.rs lines 141-252): the sentinel `-1` is skipped;
otherwise the raw value is wrapped directly via
`UnixStream::from_raw_fd` (note: no `set_cloexec` call on this path),
the target path is resolved, and on success the relay pair is
installed. -/
def handleFd (env : RelayEnv) (fd : Int) : List Ev :=
  if fd = -1 then []
  else
    Ev.fromRawFd fd ::
      match resolveSocketPath env.wayland env.xdg with
      | none => []
      | some p =>
        Ev.connectEv p ::
          installRelayPair (env.connectOk p) env.cloneClientOk env.cloneServerOk
            env.insertServerOk env.insertClientOk

/-- Outcome of a `NewPrivilegedClient` dispatch: completed normally,
panicked on the `assert_eq!`, or abandoned because `recv_with_fd`
failed. -/
inductive HandleOutcome
  | completed
  | panicked
  | recvFailed
deriving DecidableEq, Repr

/-- Result of the `recv_with_fd` call that accompanies a
`NewPrivilegedClient{count}` frame: an error, or a received descriptor
count together with the filled descriptor array of length `count`. -/
inductive RecvOutcome
  | err
  | ok (receivedCount : Nat) (fds : List Int)

/-- Dispatch of a decoded `NewPrivilegedClient{count}` frame
(session.rs lines 135-258): a failed `recv_with_fd` is logged and the
whole handling abandoned; on success `assert_eq!(received_count, count)`
panics on any mismatch BEFORE any descriptor is touched; otherwise each
of the first `received_count` delivered descriptors is handled in
order. -/
def handleNewClient (env : RelayEnv) (count : Nat) (recv : RecvOutcome) : HandleOutcome × List Ev :=
  match recv with
  | RecvOutcome.err => (HandleOutcome.recvFailed, [])
  | RecvOutcome.ok rc fds =>
    if rc = count then (HandleOutcome.completed, (fds.take rc).flatMap (handleFd env))
    else (HandleOutcome.panicked, [])

/-- Result of one `send_with_fd` attempt inside the forwarding loop:
a transient `Interrupted` error, `Ok(n)` having written `n` bytes (`n`
is capped by the model at the requested length), or any other error. -/
inductive WriteRes
  | interrupted
  | wrote (n : Nat)
  | errOther
deriving DecidableEq, Repr

/-- The forwarding write loop of one relay direction (session.rs lines
186-198): while the byte slice is non-empty, attempt
`send_with_fd(buf, fds)`; `Interrupted` retries with nothing consumed,
`Ok(0)` and any other error abandon the direction (`PostAction::Remove`),
and `Ok(n)` advances past the written bytes and clears the ancillary
descriptor set for every later attempt of this pass.  The result is the
list of successfully written segments (bytes paired with the ancillary
descriptors attached to that `sendmsg`) and the loop's post action
(`none` when the outcome script is exhausted before the loop ends). -/
def sendLoop : List WriteRes → List Nat → List Int → List (List Nat × List Int) × Option PostAction
  | _, [], _ => ([], some PostAction.Continue)
  | [], _ :: _, _ => ([], none)
  | WriteRes.interrupted :: script, b :: bs, fds => sendLoop script (b :: bs) fds
  | WriteRes.errOther :: _, _ :: _, _ => ([], some PostAction.Remove)
  | WriteRes.wrote 0 :: _, _ :: _, _ => ([], some PostAction.Remove)
  | WriteRes.wrote (n + 1) :: script, b :: bs, fds =>
    let rest := sendLoop script ((b :: bs).drop (min (n + 1) (bs.length + 1))) []
    (((b :: bs).take (min (n + 1) (bs.length + 1)), fds) :: rest.1, rest.2)

/-- Result of the `recv_with_fd` call of one relay direction:
`recvOk bytes fds` models `Ok((bytes.len(), fds.len()))` with the given
data, `recvInterrupted` the transient error, `recvErr` any other error.
`recvOk [] []` is the zero-byte zero-descriptor read (peer EOF). -/
inductive RecvRes
  | recvOk (bytes : List Nat) (fds : List Int)
  | recvInterrupted
  | recvErr
deriving Repr

/-- One readiness callback of a relay direction (session.rs lines
178-208; the opposite direction at lines 214-244 is the same code with
the endpoints swapped): data and/or descriptors received are forwarded
through the write loop; an interrupted receive is a no-op; a zero-byte
zero-descriptor receive or any other receive error shuts down both the
partner write handle and the read endpoint and removes the source. -/
def relayCallback (r : RecvRes) (script : List WriteRes) : List Ev × Option PostAction :=
  match r with
  | RecvRes.recvOk bytes fds =>
    if 0 < bytes.length ∨ 0 < fds.length then
      ((sendLoop script bytes fds).1.map (fun s => Ev.sent s.1 s.2), (sendLoop script bytes fds).2)
    else
      ([Ev.shutdownPartner, Ev.shutdownSelf], some PostAction.Remove)
  | RecvRes.recvInterrupted => ([], some PostAction.Continue)
  | RecvRes.recvErr => ([Ev.shutdownPartner, Ev.shutdownSelf], some PostAction.Remove)

/-- Concrete oracle environment for witnesses: both path variables set
(`WAYLAND_DISPLAY` absolute), every fallible call succeeding. -/
def env0 : RelayEnv :=
  ⟨some "/tmp/wayland-9", some "/run/user/1000", fun _ => true, true, true, true, true⟩

/-- Concrete fcntl oracle for witnesses: `fcntl_getfd` reports empty
flags and `fcntl_setfd` succeeds. -/
def ops0 : FdOps := ⟨Except.ok 0, fun _ => Except.ok ()⟩

/-- C9: encoding `SetEnv{variables: {"WAYLAND_DISPLAY": "wayland-1"}}`
with the codec (2-byte native-order length prefix followed by the UTF-8
JSON object tagged by a `message` field with value `set_env` and a
`variables` payload field) and then decoding the payload yields a
`SetEnv` message whose variables map equals
`{"WAYLAND_DISPLAY": "wayland-1"}`. -/
theorem C9_theorem :
    decodeFrame (encodeMessage (Message.SetEnv [("WAYLAND_DISPLAY", "wayland-1")]))
      = some (Message.SetEnv [("WAYLAND_DISPLAY", "wayland-1")]) := by decide

/-- C1 (code bug): the body read at session.rs line 121 reads into the
WHOLE buffer instead of the remaining unfilled slice while still
accumulating `read_bytes`, so a frame delivered in several non-empty
partial reads dispatches a corrupted buffer.  Concretely, the 36-byte
`SetEnv{}` frame decodes correctly when the payload arrives in one read,
but a 1-byte-then-35-byte split dispatches a buffer that fails to
decode, contradicting partial-read independence. -/
theorem C1_theorem :
    (chanRun initialStream (encodeMessage (Message.SetEnv [])) [ReadEv.ok 100]).dispatched.map decodeMessage
      = [some (Message.SetEnv [])] ∧
    (chanRun initialStream (encodeMessage (Message.SetEnv [])) [ReadEv.ok 1, ReadEv.ok 100]).dispatched.map decodeMessage
      = [none] := by decide

/-- C2 (code bug): because each body read starts at buffer index 0 and
may return up to the full buffer length, `read_bytes` can exceed the
announced size whenever the stream holds bytes beyond the current
frame.  With an announced size of 2 and body reads returning 1 then 2
bytes (the third byte belonging to subsequent traffic), `read_bytes`
reaches 3 > 2 and the state never returns to awaiting-header. -/
theorem C2_theorem :
    (chanRun initialStream [2, 0, 10, 11, 12] [ReadEv.ok 1, ReadEv.ok 2]).state.read_bytes = 3 ∧
    (chanRun initialStream [2, 0, 10, 11, 12] [ReadEv.ok 1, ReadEv.ok 2]).state.size = 2 ∧
    (chanRun initialStream [2, 0, 10, 11, 12] [ReadEv.ok 1, ReadEv.ok 2]).dispatched = [] := by decide

/-- C3 counterexample: a body read that comes up short because the peer
closed the stream mid-frame (`read` returning `Ok(0)` at EOF, modelled
by no pending bytes) does NOT remove the control-channel source — the
callback returns `Continue`, contradicting the claim that EOF before
the frame is complete is channel-fatal. -/
theorem C3_counterexample :
    ¬ (chanStep ⟨List.replicate 5 0, 5, 2⟩ [] (ReadEv.ok 1024)).action = PostAction.Remove := by
  decide

/-- C3 (amended): a failed header read — error or EOF before 2 header
bytes, `read_exact` reporting both as `Err` — removes the
control-channel source, and an I/O error on the body read also removes
it; but a body read that returns `Ok` (including the 0-byte read at
EOF) always leaves the source registered (`Continue`). -/
theorem C3_theorem : ∀ (s : StreamWrapper) (pending : List Nat) (ev : ReadEv),
    (s.size = 0 → pending.length < 2 → (chanStep s pending ev).action = PostAction.Remove) ∧
    (ev = ReadEv.ioErr → (chanStep s pending ev).action = PostAction.Remove) ∧
    (s.size ≠ 0 → ∀ n, ev = ReadEv.ok n → (chanStep s pending ev).action = PostAction.Continue) := by
  intro s pending ev
  refine ⟨?_, ?_, ?_⟩
  · intro h0 hlt
    cases pending with
    | nil => simp [chanStep, h0]
    | cons a t =>
      cases t with
      | nil => simp [chanStep, h0]
      | cons b u => simp [List.length] at hlt; omega
  · intro hev
    subst hev
    by_cases h0 : s.size = 0
    · cases pending with
      | nil => simp [chanStep, h0]
      | cons a t =>
        cases t with
        | nil => simp [chanStep, h0]
        | cons b u => simp [chanStep, h0, bodyRead]
    · simp [chanStep, h0, bodyRead]
  · intro h0 n hev
    subst hev
    simp only [chanStep, if_neg h0, bodyRead]
    split <;> rfl

/-- C3 witness: concrete instances for each hypothesis group of
`C3_theorem` — a header-phase EOF, a body-phase I/O error, and a
body-phase 0-byte read. -/
theorem C3_witness :
    (chanStep ⟨[], 0, 0⟩ [] ReadEv.ioErr).action = PostAction.Remove ∧
    (chanStep ⟨[0, 0], 2, 0⟩ [7] ReadEv.ioErr).action = PostAction.Remove ∧
    (chanStep ⟨[0, 0], 2, 0⟩ [] (ReadEv.ok 16)).action = PostAction.Continue :=
  ⟨(C3_theorem ⟨[], 0, 0⟩ [] ReadEv.ioErr).1 rfl (by decide),
   (C3_theorem ⟨[0, 0], 2, 0⟩ [7] ReadEv.ioErr).2.1 rfl,
   (C3_theorem ⟨[0, 0], 2, 0⟩ [] (ReadEv.ok 16)).2.2 (by decide) 16 rfl⟩

/-- C6: whenever the `recv_with_fd` accompanying a decoded
`NewPrivilegedClient{count}` frame succeeds but delivers a descriptor
count different from `count`, `assert_eq!(received_count, count)`
panics before any descriptor is handled — the outcome is `panicked`
with no relay-setup events, never a silent continuation with fewer
relays. -/
theorem C6_theorem : ∀ (env : RelayEnv) (count rc : Nat) (fds : List Int),
    rc ≠ count →
    handleNewClient env count (RecvOutcome.ok rc fds) = (HandleOutcome.panicked, []) := by
  intro env count rc fds h
  simp [handleNewClient, h]

/-- C6 witness: requesting 2 descriptors but receiving 1 panics with no
relay set up. -/
theorem C6_witness :
    handleNewClient env0 2 (RecvOutcome.ok 1 [5, -1]) = (HandleOutcome.panicked, []) :=
  C6_theorem env0 2 1 [5, -1] (by decide)

/-- C7: adoption of a raw descriptor (session.rs lines 46-53 and 79-87):
the sentinel `-1` fails with `EBADF`; any failure of the flag operation
yields a failure result with the raw descriptor closed in the event
trace; success yields an owned socket wrapping the descriptor with no
close; and in every case either an owned socket for the descriptor is
returned (with no close event) or the descriptor has been closed —
never an error with the descriptor left open and unowned. -/
theorem C7_theorem : ∀ (fd : Int) (ops : FdOps),
    (fd = -1 → set_cloexec fd ops = Except.error Errno.BADF) ∧
    (∀ e, set_cloexec fd ops = Except.error e →
      adoptControlSocket fd ops = (AdoptResult.failure e, [Ev.setCloexecEv fd, Ev.closeRaw fd])) ∧
    (set_cloexec fd ops = Except.ok () →
      adoptControlSocket fd ops = (AdoptResult.sock fd, [Ev.setCloexecEv fd])) ∧
    (((adoptControlSocket fd ops).1 = AdoptResult.sock fd ∧
        Ev.closeRaw fd ∉ (adoptControlSocket fd ops).2) ∨
      ((∃ e, (adoptControlSocket fd ops).1 = AdoptResult.failure e) ∧
        Ev.closeRaw fd ∈ (adoptControlSocket fd ops).2)) := by
  intro fd ops
  refine ⟨?_, ?_, ?_, ?_⟩
  · intro h
    simp [set_cloexec, h]
  · intro e h
    simp [adoptControlSocket, h]
  · intro h
    simp [adoptControlSocket, h]
  · cases h : set_cloexec fd ops with
    | ok u =>
      left
      simp [adoptControlSocket, h]
    | error e =>
      right
      simp [adoptControlSocket, h]

/-- C7 witness: the sentinel `-1` fails with `EBADF` and is "closed";
a valid descriptor with working fcntl is adopted into an owned socket. -/
theorem C7_witness :
    set_cloexec (-1) ops0 = Except.error Errno.BADF ∧
    adoptControlSocket (-1) ops0 = (AdoptResult.failure Errno.BADF, [Ev.setCloexecEv (-1), Ev.closeRaw (-1)]) ∧
    adoptControlSocket 3 ops0 = (AdoptResult.sock 3, [Ev.setCloexecEv 3]) :=
  ⟨(C7_theorem (-1) ops0).1 rfl,
   (C7_theorem (-1) ops0).2.1 Errno.BADF ((C7_theorem (-1) ops0).1 rfl),
   (C7_theorem 3 ops0).2.2.1 rfl⟩

/-- C8: display-socket path resolution: an absolute `WAYLAND_DISPLAY` is
used unchanged regardless of `XDG_RUNTIME_DIR`; a relative one is joined
under an absolute `XDG_RUNTIME_DIR`; and the relay is abandoned (no
path) when `WAYLAND_DISPLAY` is missing, or — in the relative case —
when `XDG_RUNTIME_DIR` is missing or not absolute. -/
theorem C8_theorem :
    (∀ w x, isAbsolutePath w = true → resolveSocketPath (some w) x = some w) ∧
    (∀ w b, isAbsolutePath w = false → isAbsolutePath b = true →
      resolveSocketPath (some w) (some b) = some (pathPush b w)) ∧
    (∀ x, resolveSocketPath none x = none) ∧
    (∀ w, isAbsolutePath w = false → resolveSocketPath (some w) none = none) ∧
    (∀ w b, isAbsolutePath w = false → isAbsolutePath b = false →
      resolveSocketPath (some w) (some b) = none) := by
  refine ⟨?_, ?_, ?_, ?_, ?_⟩
  · intro w x h
    simp [resolveSocketPath, h]
  · intro w b hw hb
    simp [resolveSocketPath, hw, hb]
  · intro x
    simp [resolveSocketPath]
  · intro w hw
    simp [resolveSocketPath, hw]
  · intro w b hw hb
    simp [resolveSocketPath, hw, hb]

/-- C8 witness: the spec's two concrete examples plus the three
abandonment cases at concrete values. -/
theorem C8_witness :
    resolveSocketPath (some "/tmp/wayland-9") (some "relative-dir") = some "/tmp/wayland-9" ∧
    resolveSocketPath (some "wayland-1") (some "/run/user/1000") = some "/run/user/1000/wayland-1" ∧
    resolveSocketPath none (some "/run/user/1000") = none ∧
    resolveSocketPath (some "wayland-1") none = none ∧
    resolveSocketPath (some "wayland-1") (some "run") = none :=
  ⟨C8_theorem.1 "/tmp/wayland-9" (some "relative-dir") (by decide),
   (C8_theorem.2.1 "wayland-1" "/run/user/1000" (by decide) (by decide)).trans (by decide),
   C8_theorem.2.2.1 (some "/run/user/1000"),
   C8_theorem.2.2.2.1 "wayland-1" (by decide),
   C8_theorem.2.2.2.2 "wayland-1" "run" (by decide) (by decide)⟩

/-- C10: a failed `insert_source` for one forwarding direction is only
logged: the other direction's registration is unaffected (a relay pair
can end up with exactly one direction installed, in either combination)
and the setup path never shuts down an endpoint. -/
theorem C10_theorem :
    installRelayPair true true true true false = [Ev.installed Dir.serverToClient] ∧
    installRelayPair true true true false true = [Ev.installed Dir.clientToServer] ∧
    (∀ i1 i2 : Bool,
      Ev.shutdownSelf ∉ installRelayPair true true true i1 i2 ∧
      Ev.shutdownPartner ∉ installRelayPair true true true i1 i2) := by
  refine ⟨rfl, rfl, ?_⟩
  intro i1 i2
  cases i1 <;> cases i2 <;> exact ⟨by decide, by decide⟩

/-- Relay installation emits only `installed` events — in particular
never a `setCloexecEv`. -/
lemma setCloexecEv_not_in_installRelayPair (a b c d e : Bool) (fd : Int) :
    Ev.setCloexecEv fd ∉ installRelayPair a b c d e := by
  cases a <;> cases b <;> cases c <;> cases d <;> cases e <;> simp [installRelayPair]

/-- No path of the per-descriptor handling performs a close-on-exec flag
operation. -/
lemma setCloexecEv_not_in_handleFd (env : RelayEnv) (g fd : Int) :
    Ev.setCloexecEv fd ∉ handleFd env g := by
  by_cases h : g = -1
  · simp [handleFd, h]
  · cases hr : resolveSocketPath env.wayland env.xdg with
    | none => simp [handleFd, h, hr]
    | some p => simp [handleFd, h, hr, setCloexecEv_not_in_installRelayPair]

/-- C4 counterexample: a non-sentinel descriptor (5) delivered with a
`NewPrivilegedClient` frame is wrapped via `from_raw_fd` and used as the
client-side relay endpoint, yet no close-on-exec flag operation ever
appears in the trace — contradicting the claim that every such
descriptor goes through the §4.1 adoption. -/
theorem C4_counterexample :
    Ev.fromRawFd 5 ∈ (handleNewClient env0 1 (RecvOutcome.ok 1 [5])).2 ∧
    Ev.installed Dir.serverToClient ∈ (handleNewClient env0 1 (RecvOutcome.ok 1 [5])).2 ∧
    Ev.setCloexecEv 5 ∉ (handleNewClient env0 1 (RecvOutcome.ok 1 [5])).2 := by
  decide

/-- C4 (amended): descriptors delivered with `NewPrivilegedClient` are
never passed through `set_cloexec` — no handling path emits a flag
operation for any descriptor — and every delivered non-sentinel
descriptor is instead wrapped directly into an owned socket via
`UnixStream::from_raw_fd` (only the inherited control-socket descriptor
receives the §4.1 adoption, see `adoptControlSocket`). -/
theorem C4_theorem : ∀ (env : RelayEnv) (count : Nat) (recv : RecvOutcome) (fd : Int),
    Ev.setCloexecEv fd ∉ (handleNewClient env count recv).2 ∧
    (∀ rc fds, recv = RecvOutcome.ok rc fds → rc = count → fd ∈ fds.take rc → fd ≠ -1 →
      Ev.fromRawFd fd ∈ (handleNewClient env count recv).2) := by
  intro env count recv fd
  constructor
  · cases recv with
    | err => simp [handleNewClient]
    | ok rc fds =>
      by_cases h : rc = count
      · simp only [handleNewClient, if_pos h]
        intro hmem
        rcases List.mem_flatMap.mp hmem with ⟨g, _, hin⟩
        exact setCloexecEv_not_in_handleFd env g fd hin
      · simp [handleNewClient, h]
  · intro rc fds hrecv hcount hmem hfd
    subst hrecv
    subst hcount
    simp only [handleNewClient, if_pos rfl]
    refine List.mem_flatMap.mpr ⟨fd, hmem, ?_⟩
    simp [handleFd, hfd]

/-- C4 witness: concrete instance of `C4_theorem` at descriptor 5. -/
theorem C4_witness :
    Ev.setCloexecEv 5 ∉ (handleNewClient env0 1 (RecvOutcome.ok 1 [5])).2 ∧
    Ev.fromRawFd 5 ∈ (handleNewClient env0 1 (RecvOutcome.ok 1 [5])).2 :=
  ⟨(C4_theorem env0 1 (RecvOutcome.ok 1 [5]) 5).1,
   (C4_theorem env0 1 (RecvOutcome.ok 1 [5]) 5).2 1 [5] rfl rfl (by decide) (by decide)⟩

/-- Once the ancillary set has been cleared (called with no
descriptors), every segment the loop writes carries no descriptors. -/
lemma sendLoop_fds_nil (script : List WriteRes) : ∀ (buf : List Nat) (p : List Nat × List Int),
    p ∈ (sendLoop script buf []).1 → p.2 = [] := by
  induction script with
  | nil =>
    intro buf p hp
    cases buf <;> simp [sendLoop] at hp
  | cons w script ih =>
    intro buf p hp
    cases buf with
    | nil => simp [sendLoop] at hp
    | cons b bs =>
      cases w with
      | interrupted => exact ih _ _ (by simpa [sendLoop] using hp)
      | errOther => simp [sendLoop] at hp
      | wrote n =>
        cases n with
        | zero => simp [sendLoop] at hp
        | succ m =>
          simp only [sendLoop, List.mem_cons] at hp
          rcases hp with h1 | h2
          · rw [h1]
          · exact ih _ _ h2

/-- All segments after the first one carry no ancillary descriptors:
the tail of the segment list always has empty descriptor sets. -/
lemma sendLoop_tail_fds (script : List WriteRes) : ∀ (buf : List Nat) (fds : List Int)
    (p : List Nat × List Int), p ∈ ((sendLoop script buf fds).1).tail → p.2 = [] := by
  induction script with
  | nil =>
    intro buf fds p hp
    cases buf <;> simp [sendLoop] at hp
  | cons w script ih =>
    intro buf fds p hp
    cases buf with
    | nil => simp [sendLoop] at hp
    | cons b bs =>
      cases w with
      | interrupted => exact ih _ _ _ (by simpa [sendLoop] using hp)
      | errOther => simp [sendLoop] at hp
      | wrote n =>
        cases n with
        | zero => simp [sendLoop] at hp
        | succ m =>
          simp only [sendLoop, List.tail_cons] at hp
          exact sendLoop_fds_nil script _ _ hp

/-- When the write loop completes normally (`Continue`), the written
segments concatenate to exactly the received bytes, in order, and every
segment is non-empty. -/
lemma sendLoop_flatten (script : List WriteRes) : ∀ (buf : List Nat) (fds : List Int),
    (sendLoop script buf fds).2 = some PostAction.Continue →
    ((sendLoop script buf fds).1.map Prod.fst).flatten = buf ∧
    ∀ p ∈ (sendLoop script buf fds).1, p.1 ≠ [] := by
  induction script with
  | nil =>
    intro buf fds h
    cases buf with
    | nil => simp [sendLoop]
    | cons b bs => simp [sendLoop] at h
  | cons w script ih =>
    intro buf fds h
    cases buf with
    | nil => simp [sendLoop]
    | cons b bs =>
      cases w with
      | interrupted =>
        have h2 : (sendLoop script (b :: bs) fds).2 = some PostAction.Continue := by
          simpa [sendLoop] using h
        have := ih (b :: bs) fds h2
        simpa [sendLoop] using this
      | errOther => simp [sendLoop] at h
      | wrote n =>
        cases n with
        | zero => simp [sendLoop] at h
        | succ m =>
          have h2 : (sendLoop script ((b :: bs).drop (min (m + 1) (bs.length + 1))) []).2
              = some PostAction.Continue := by
            simpa [sendLoop] using h
          rcases ih _ [] h2 with ⟨hflat, hne⟩
          constructor
          · simp only [sendLoop, List.map_cons, List.flatten_cons, hflat]
            exact List.take_append_drop _ _
          · intro p hp
            simp only [sendLoop, List.mem_cons] at hp
            rcases hp with h1 | h1
            · rw [h1]
              have hmin : min (m + 1) (bs.length + 1) = (min m bs.length) + 1 :=
                Nat.succ_min_succ m bs.length
              simp [hmin]
            · exact hne p h1

/-- When the write loop completes normally on a non-empty byte slice,
the first written segment carries exactly the received ancillary
descriptor set. -/
lemma sendLoop_head (script : List WriteRes) : ∀ (buf : List Nat) (fds : List Int),
    buf ≠ [] →
    (sendLoop script buf fds).2 = some PostAction.Continue →
    ∃ seg tl, (sendLoop script buf fds).1 = (seg, fds) :: tl := by
  induction script with
  | nil =>
    intro buf fds hne h
    cases buf with
    | nil => exact absurd rfl hne
    | cons b bs => simp [sendLoop] at h
  | cons w script ih =>
    intro buf fds hne h
    cases buf with
    | nil => exact absurd rfl hne
    | cons b bs =>
      cases w with
      | interrupted =>
        have h2 : (sendLoop script (b :: bs) fds).2 = some PostAction.Continue := by
          simpa [sendLoop] using h
        rcases ih (b :: bs) fds (by simp) h2 with ⟨seg, tl, htl⟩
        exact ⟨seg, tl, by simpa [sendLoop] using htl⟩
      | errOther => simp [sendLoop] at h
      | wrote n =>
        cases n with
        | zero => simp [sendLoop] at h
        | succ m =>
          exact ⟨(b :: bs).take (min (m + 1) (bs.length + 1)),
            (sendLoop script ((b :: bs).drop (min (m + 1) (bs.length + 1))) []).1, rfl⟩

/-- C5 counterexample: a receive reporting zero bytes but one delivered
descriptor (fd 7) takes the forwarding branch (the guard accepts
`fd_count > 0`), yet the write loop never runs because the byte slice is
empty: the callback returns `Continue` having sent nothing — the
received descriptor is dropped, not forwarded. -/
theorem C5_counterexample :
    relayCallback (RecvRes.recvOk [] [7]) [WriteRes.wrote 8] = ([], some PostAction.Continue) := by
  decide

/-- C5 (amended): for a receive that returns at least one byte, if the
forwarding loop completes without a terminal write failure then the
written segments reproduce the received bytes exactly (a partial write
is retried on precisely the unwritten tail, an interrupted write
consumes nothing), every segment is non-empty, and the ancillary
descriptors are attached to the first segment only — never duplicated,
never dropped.  When zero bytes accompany the descriptors the loop body
never executes (see the counterexample). -/
theorem C5_theorem : ∀ (bytes : List Nat) (fds : List Int) (script : List WriteRes),
    bytes ≠ [] →
    (sendLoop script bytes fds).2 = some PostAction.Continue →
    ((sendLoop script bytes fds).1.map Prod.fst).flatten = bytes ∧
    (∀ p ∈ (sendLoop script bytes fds).1, p.1 ≠ []) ∧
    (∃ seg tl, (sendLoop script bytes fds).1 = (seg, fds) :: tl ∧ ∀ p ∈ tl, p.2 = []) ∧
    relayCallback (RecvRes.recvOk bytes fds) script
      = ((sendLoop script bytes fds).1.map (fun s => Ev.sent s.1 s.2), some PostAction.Continue) := by
  intro bytes fds script hne h
  rcases sendLoop_flatten script bytes fds h with ⟨hflat, hseg⟩
  rcases sendLoop_head script bytes fds hne h with ⟨seg, tl, htl⟩
  refine ⟨hflat, hseg, ⟨seg, tl, htl, ?_⟩, ?_⟩
  · intro p hp
    refine sendLoop_tail_fds script bytes fds p ?_
    rw [htl]
    simpa using hp
  · have hlen : 0 < bytes.length ∨ 0 < fds.length := by
      left
      cases bytes with
      | nil => exact absurd rfl hne
      | cons b bs => simp
    simp [relayCallback, hlen, h]

/-- C5 witness: bytes [1,2,3] with descriptor set [9] against a write
script "interrupted, then accept 2, then accept the rest": the segments
are ([1,2] with [9]) then ([3] with no descriptors). -/
theorem C5_witness :
    ((sendLoop [WriteRes.interrupted, WriteRes.wrote 2, WriteRes.wrote 5] [1, 2, 3] [9]).1.map Prod.fst).flatten
      = [1, 2, 3] ∧
    (∃ seg tl, (sendLoop [WriteRes.interrupted, WriteRes.wrote 2, WriteRes.wrote 5] [1, 2, 3] [9]).1
      = (seg, [9]) :: tl ∧ ∀ p ∈ tl, p.2 = []) :=
  ⟨(C5_theorem [1, 2, 3] [9] [WriteRes.interrupted, WriteRes.wrote 2, WriteRes.wrote 5]
      (by decide) rfl).1,
   (C5_theorem [1, 2, 3] [9] [WriteRes.interrupted, WriteRes.wrote 2, WriteRes.wrote 5]
      (by decide) rfl).2.2.1⟩
